import Mathlib

/-!
Shallow embedding of the Bayesian model-mapping engine of `psamm/bayesian.py`
(classes `BayesianCompoundPredictor` / `BayesianReactionPredictor` and the
free functions they drive), together with theorems settling the frozen claims
about it.

Conventions of the embedding:

* Python floats are modelled as exact rationals (`ℚ`).
* `reaction_equation_mapping_approx_max_likelihood` accumulates
  `np.log` values and exponentiates at the end; since
  `exp (Σ log xᵢ) = Π xᵢ` over the reals (every accumulated factor is
  positive), the accumulation is modelled multiplicatively over `ℚ`.
* Python `set`s that are iterated are modelled as `List`s, which keeps the
  iteration order explicit; functions that mutate their argument sets in
  place (`set.remove` in the greedy matcher) instead return the depleted
  lists explicitly.
* `pandas` tables indexed by entity pairs are modelled as total functions
  from the pair key, following the key-value reading of the data model
  (spec §9); the `multiprocessing.Pool` evaluation is order-independent
  (spec §4.4) and is modelled as direct evaluation.
* `pandas.sort_values(ascending=False)` is modelled by a deterministic
  stable insertion sort: ties keep the iteration order of the candidate
  list (spec §4.3 step 4).
* The one place the code can raise (`ZeroDivisionError` on an empty cross
  product) is modelled with `Except`.
-/

namespace Psamm

/-- Modelled from the spec: `psamm.bayesian_util` is not among the provided
source files.  §4.1 says identifier and name comparisons tolerate formatting
noise (case, whitespace, punctuation) per a fixed normalization rule; the
rule is modelled as keeping alphanumeric characters, lowercased. -/
def normalize_str (s : String) : String :=
  ((s.toList.filter Char.isAlphanum).map Char.toLower).asString

/-- Modelled from the spec: `util.id_equals`, equality of identifiers up to
the fixed normalization rule of §4.1. -/
def id_equals (i1 i2 : String) : Bool :=
  normalize_str i1 == normalize_str i2

/-- Modelled from the spec: `util.name_equals`, equality of optional names up
to the fixed normalization rule of §4.1.  An undefined name compares equal to
nothing.  No theorem below depends on the internals of this comparator: the
likelihood functions that call it return a branch constant either way. -/
def name_equals : Option String → Option String → Bool
  | some n1, some n2 => normalize_str n1 == normalize_str n2
  | _, _ => false

/-- Modelled from the spec: `util.formula_equals`.  §4.1's proton-count /
charge-delta tolerance is abstracted to normalized string equality; no
theorem below depends on the internals of this comparator. -/
def formula_equals (f1 f2 : Option String) (ch1 ch2 : Option Int) : Bool :=
  match f1, f2, ch1, ch2 with
  | some a, some b, _, _ => normalize_str a == normalize_str b
  | _, _, _, _ => false

/-- Compound entity (spec §3): identifier plus optional annotations. -/
structure Compound where
  id : String
  name : Option String := none
  charge : Option Int := none
  formula : Option String := none
  kegg : Option String := none

/-- Reaction equation: list of (compound name, signed stoichiometric
coefficient) pairs; negative for reactants, positive for products. -/
abbrev Equation := List (String × ℚ)

/-- Reaction entity (spec §3). -/
structure Reaction where
  id : String
  name : Option String := none
  equation : Option Equation := none
  genes : Option (Finset String) := none

/-! ### Per-channel likelihood functions (bayesian.py lines 122-257, 369-395) -/

/-- Embeds `compound_id_likelihood`. -/
def compound_id_likelihood (c1 c2 : Compound)
    (compound_prior compound_id_marg : ℚ) : ℚ × ℚ :=
  if id_equals c1.id c2.id then
    let p_match : ℚ := 0.65
    let p_marg := compound_id_marg
    (p_match, max 0 ((p_marg - p_match * compound_prior) / (1.0 - compound_prior)))
  else
    let p_match : ℚ := 0.35
    let p_marg := 1.0 - compound_id_marg
    (p_match, max 0 ((p_marg - p_match * compound_prior) / (1.0 - compound_prior)))

/-- Embeds `compound_name_likelihood`.  Note: unlike the charge / formula /
kegg channels there is no undefined-value test before the comparator. -/
def compound_name_likelihood (c1 c2 : Compound)
    (compound_prior compound_name_marg : ℚ) : ℚ × ℚ :=
  if name_equals c1.name c2.name then
    let p_match : ℚ := 0.60
    let p_marg := compound_name_marg
    (p_match, max 0 ((p_marg - p_match * compound_prior) / (1.0 - compound_prior)))
  else
    let p_match : ℚ := 0.40
    let p_marg := 1.0 - compound_name_marg
    (p_match, max 0 ((p_marg - p_match * compound_prior) / (1.0 - compound_prior)))

/-- Embeds `compound_charge_likelihood`: an undefined charge on either side
short-circuits to the neutral result before the comparison. -/
def compound_charge_likelihood (c1 c2 : Compound) (compound_prior
    compound_charge_equal_marg compound_charge_not_equal_marg : ℚ) : ℚ × ℚ :=
  match c1.charge, c2.charge with
  | none, _ => (1, 1)
  | _, none => (1, 1)
  | some ch1, some ch2 =>
    if ch1 = ch2 then
      (0.9, max 0 ((compound_charge_equal_marg - 0.9 * compound_prior) /
        (1.0 - compound_prior)))
    else
      (0.1, max 0 ((compound_charge_not_equal_marg - 0.1 * compound_prior) /
        (1.0 - compound_prior)))

/-- Embeds `compound_formula_likelihood`. -/
def compound_formula_likelihood (c1 c2 : Compound) (compound_prior
    compound_formula_equal_marg compound_formula_not_equal_marg : ℚ) : ℚ × ℚ :=
  match c1.formula, c2.formula with
  | none, _ => (1, 1)
  | _, none => (1, 1)
  | some _, some _ =>
    if formula_equals c1.formula c2.formula c1.charge c2.charge then
      (0.9, max 0 ((compound_formula_equal_marg - 0.9 * compound_prior) /
        (1.0 - compound_prior)))
    else
      (0.1, max 0 ((compound_formula_not_equal_marg - 0.1 * compound_prior) /
        (1.0 - compound_prior)))

/-- Embeds `compound_kegg_likelihood`. -/
def compound_kegg_likelihood (c1 c2 : Compound) (compound_prior
    compound_kegg_equal_marg compound_kegg_not_equal_marg : ℚ) : ℚ × ℚ :=
  match c1.kegg, c2.kegg with
  | none, _ => (1, 1)
  | _, none => (1, 1)
  | some k1, some k2 =>
    if k1 = k2 then
      (0.65, max 0 ((compound_kegg_equal_marg - 0.65 * compound_prior) /
        (1.0 - compound_prior)))
    else
      (0.35, max 0 ((compound_kegg_not_equal_marg - 0.35 * compound_prior) /
        (1.0 - compound_prior)))

/-- Embeds `reaction_id_likelihood`. -/
def reaction_id_likelihood (r1 r2 : Reaction) (reaction_prior
    reaction_id_equal_marg reaction_id_not_equal_marg : ℚ) : ℚ × ℚ :=
  if id_equals r1.id r2.id then
    (0.52, max 0 ((reaction_id_equal_marg - 0.52 * reaction_prior) /
      (1.0 - reaction_prior)))
  else
    (0.48, max 0 ((reaction_id_not_equal_marg - 0.48 * reaction_prior) /
      (1.0 - reaction_prior)))

/-- Embeds `reaction_name_likelihood`.  The non-equal branch derives the
marginal of the observed outcome as `1 - reaction_name_marg` inline.  There
is no undefined-value test before the comparator. -/
def reaction_name_likelihood (r1 r2 : Reaction)
    (reaction_prior reaction_name_marg : ℚ) : ℚ × ℚ :=
  if name_equals r1.name r2.name then
    (0.59, max 0 ((reaction_name_marg - 0.59 * reaction_prior) /
      (1.0 - reaction_prior)))
  else
    (0.41, max 0 ((1.0 - reaction_name_marg - 0.41 * reaction_prior) /
      (1.0 - reaction_prior)))

/-- Embeds `reaction_genes_likelihood` (`^` on Python sets is symmetric
difference). -/
def reaction_genes_likelihood (r1 r2 : Reaction) : ℚ × ℚ :=
  match r1.genes, r2.genes with
  | none, _ => (1, 1)
  | _, none => (1, 1)
  | some g1, some g2 =>
    let present := (g1 ∩ g2).card
    let differ := ((g1 \ g2) ∪ (g2 \ g1)).card
    ((0.99 : ℚ) ^ present * (0.01 : ℚ) ^ differ,
     (0.10 : ℚ) ^ present * (0.90 : ℚ) ^ differ)

/-- Embeds `fake_likelihood`: the neutral likelihood used when an optional
channel is disabled. -/
def fake_likelihood {α β : Type} (e1 : α) (e2 : β) : ℚ × ℚ := (1, 1)

/-! ### Equation matcher (bayesian.py lines 260-366) -/

/-- Lookup in the compound posterior table `cpd_pred`; models both the pandas
index-membership test `(c1, c2) in cpd_pred.index` and the score access
`cpd_pred[(c1, c2)]`. -/
def cpd_pred_lookup : List ((String × String) × ℚ) → String × String → Option ℚ
  | [], _ => none
  | (k, v) :: rest, pr => if k = pr then some v else cpd_pred_lookup rest pr

/-- Models the `pair_list` comprehension together with `cpd_pred.loc[pair_list]`:
all pairs of the product of the two compound sets that are present in the
posterior table, tagged with their scores, in product order. -/
def candidate_pairs (cpd_set1 cpd_set2 : List String)
    (cpd_pred : List ((String × String) × ℚ)) : List ((String × String) × ℚ) :=
  (cpd_set1.product cpd_set2).filterMap
    (fun pr => (cpd_pred_lookup cpd_pred pr).map (fun v => (pr, v)))

/-- One step of the stable descending insertion sort. -/
def insert_desc (x : (String × String) × ℚ) :
    List ((String × String) × ℚ) → List ((String × String) × ℚ)
  | [] => [x]
  | y :: ys => if y.2 < x.2 then x :: y :: ys else y :: insert_desc x ys

/-- Deterministic model of `cpd_pred.loc[pair_list].sort_values(ascending=False)`:
stable sort by descending score, ties keeping the candidate-list order
(spec §4.3 step 4: ties broken by the fixed iteration order). -/
def sort_desc (l : List ((String × String) × ℚ)) : List ((String × String) × ℚ) :=
  l.foldl (fun acc x => insert_desc x acc) []

/-- The greedy commit loop of `reaction_equation_mapping_approx_max_likelihood`:
walk the sorted candidate list, commit a pair when both endpoints are still
present, multiply the match / no-match factors into the accumulator and
remove the committed compounds from the sets. -/
def greedy_loop : List ((String × String) × ℚ) → List String → List String →
    ℚ × ℚ → (ℚ × ℚ) × List String × List String
  | [], s1, s2, p => (p, s1, s2)
  | (pr, score) :: rest, s1, s2, p =>
    if pr.1 ∈ s1 ∧ pr.2 ∈ s2 then
      greedy_loop rest (s1.erase pr.1) (s2.erase pr.2)
        (p.1 * (score * 0.9 + (1 - score) * 0.1),
         p.2 * (score * 0.1 + (1 - score) * 0.9))
    else
      greedy_loop rest s1 s2 p

/-- Companion of `greedy_loop` recording the pairs the greedy matcher
commits, in commit order. -/
def committed_loop : List ((String × String) × ℚ) → List String → List String →
    List (String × String)
  | [], _, _ => []
  | (pr, _) :: rest, s1, s2 =>
    if pr.1 ∈ s1 ∧ pr.2 ∈ s2 then
      pr :: committed_loop rest (s1.erase pr.1) (s2.erase pr.2)
    else
      committed_loop rest s1 s2

/-- Embeds `reaction_equation_mapping_approx_max_likelihood`.  Every compound
left in either set after the greedy loop contributes a fixed factor `0.1` to
the match value and `0.9` to the no-match value (the source adds `log 0.1` /
`log 0.9` per leftover compound).  The depleted sets are returned: the source
mutates its two arguments in place. -/
def reaction_equation_mapping_approx_max_likelihood
    (cpd_set1 cpd_set2 : List String)
    (cpd_pred : List ((String × String) × ℚ)) :
    (ℚ × ℚ) × List String × List String :=
  let cand := sort_desc (candidate_pairs cpd_set1 cpd_set2 cpd_pred)
  let r := greedy_loop cand cpd_set1 cpd_set2 (1, 1)
  ((r.1.1 * (0.1 : ℚ) ^ (r.2.1.length + r.2.2.length),
    r.1.2 * (0.9 : ℚ) ^ (r.2.1.length + r.2.2.length)),
   r.2)

/-- The pairs committed by the greedy matcher on the given inputs. -/
def committed_pairs (cpd_set1 cpd_set2 : List String)
    (cpd_pred : List ((String × String) × ℚ)) : List (String × String) :=
  committed_loop (sort_desc (candidate_pairs cpd_set1 cpd_set2 cpd_pred))
    cpd_set1 cpd_set2

/-- Embeds `merge_partial_p_set` (source name): score the left-side pairing
and the right-side pairing independently and combine as a product.  The four
depleted sets are returned explicitly (the source depletes them in place). -/
def merge_p_set (cpd_set1_left cpd_set2_left : List String)
    (cpd_pred : List ((String × String) × ℚ))
    (cpd_set1_right cpd_set2_right : List String) :
    (ℚ × ℚ) × (List String × List String) × List String × List String :=
  let p_set_left := reaction_equation_mapping_approx_max_likelihood
    cpd_set1_left cpd_set2_left cpd_pred
  let p_set_right := reaction_equation_mapping_approx_max_likelihood
    cpd_set1_right cpd_set2_right cpd_pred
  ((p_set_left.1.1 * p_set_right.1.1, p_set_left.1.2 * p_set_right.1.2),
   p_set_left.2, p_set_right.2)

/-- Embeds `get_cpd_set`: the compound names appearing on one side of the
equation (left = negative coefficient), as a duplicate-free list (the source
builds a Python set). -/
def get_cpd_set (equation : Equation) (left : Bool) : List String :=
  let coef : ℚ := if left then 1 else -1
  ((equation.filter (fun p => decide (coef * p.2 < 0))).map Prod.fst).dedup

/-- Equation reversal: swap substrates and products by negating every
stoichiometric coefficient. -/
def reverse_equation (equation : Equation) : Equation :=
  equation.map (fun p => (p.1, -p.2))

/-- Embeds `get_best_p_value_set`: score the forward hypothesis, then the
reverse hypothesis on the sets as left depleted by the forward hypothesis
(the source aliases the same four mutated set objects), and keep the
hypothesis with the better match / no-match ratio. -/
def get_best_p_value_set (eq1 eq2 : Equation)
    (cpd_pred : List ((String × String) × ℚ)) : ℚ × ℚ :=
  let cpd_set1_left := get_cpd_set eq1 true
  let cpd_set1_right := get_cpd_set eq1 false
  let cpd_set2_left := get_cpd_set eq2 true
  let cpd_set2_right := get_cpd_set eq2 false
  let fwd := merge_p_set cpd_set1_left cpd_set2_left cpd_pred
    cpd_set1_right cpd_set2_right
  let rev := merge_p_set fwd.2.1.1 fwd.2.2.2 cpd_pred fwd.2.2.1 fwd.2.1.2
  if fwd.1.1 / fwd.1.2 ≥ rev.1.1 / rev.1.2 then fwd.1 else rev.1

/-- Comparison variant (not in the source): the reverse hypothesis re-scored
on the original, freshly recomputed compound sets.  Used to exhibit that the
source's aliasing of the depleted sets is observable. -/
def get_best_p_value_set_fresh (eq1 eq2 : Equation)
    (cpd_pred : List ((String × String) × ℚ)) : ℚ × ℚ :=
  let cpd_set1_left := get_cpd_set eq1 true
  let cpd_set1_right := get_cpd_set eq1 false
  let cpd_set2_left := get_cpd_set eq2 true
  let cpd_set2_right := get_cpd_set eq2 false
  let fwd := merge_p_set cpd_set1_left cpd_set2_left cpd_pred
    cpd_set1_right cpd_set2_right
  let rev := merge_p_set cpd_set1_left cpd_set2_right cpd_pred
    cpd_set1_right cpd_set2_left
  if fwd.1.1 / fwd.1.2 ≥ rev.1.1 / rev.1.2 then fwd.1 else rev.1

/-- Embeds `reaction_equation_compound_mapping_likelihood`: an undefined
equation on either side short-circuits to the neutral result. -/
def reaction_equation_compound_mapping_likelihood (r1 r2 : Reaction)
    (cpd_pred : List ((String × String) × ℚ)) : ℚ × ℚ :=
  match r1.equation, r2.equation with
  | none, _ => (1, 1)
  | _, none => (1, 1)
  | some e1, some e2 => get_best_p_value_set e1 e2 cpd_pred

/-! ### Aggregation (bayesian.py lines 398-426) -/

/-- Embeds `pairwise_likelihood`: the table of a likelihood function over the
full cross product, as a function of the pair key (every pair's result
depends only on its own two entities, spec §4.4, so the parallel pool
evaluation is modelled as direct evaluation). -/
def pairwise_likelihood {α β : Type} (f : α → β → ℚ × ℚ) : α × β → ℚ × ℚ :=
  fun p => f p.1 p.2

/-- Embeds `likelihood_products`: elementwise product of the per-channel
tables, starting from the scalar `1.0` (the neutral table). -/
def likelihood_products {κ : Type} (likelihood_dfs : List (κ → ℚ × ℚ)) :
    κ → ℚ × ℚ :=
  likelihood_dfs.foldl
    (fun acc df k => ((acc k).1 * (df k).1, (acc k).2 * (df k).2))
    (fun _ => (1, 1))

/-- Embeds `bayes_posterior`. -/
def bayes_posterior {κ : Type} (prior : ℚ) (likelihood_df : κ → ℚ × ℚ) :
    κ → ℚ :=
  fun k =>
    let p_1 := prior * (likelihood_df k).1
    let p_2 := (1.0 - prior) * (likelihood_df k).2
    p_1 / (p_1 + p_2)

/-! ### Compound mapping driver (bayesian.py lines 434-594) -/

/-- Size of the compound cross product. -/
def compound_pairs (model1 model2 : List Compound) : ℕ :=
  model1.length * model2.length

/-- The compound prior: a guesstimate that 95% of the smaller model can be
mapped, spread over the product space.  Total over `ℚ`; the source divides
unguardedly and its `ZeroDivisionError` on an empty product is modelled in
`map_model_compounds`. -/
def compound_prior (model1 model2 : List Compound) : ℚ :=
  (0.95 * (min model1.length model2.length : ℕ)) /
    (compound_pairs model1 model2 : ℕ)

/-- Marginal probability of observing two equal compound IDs. -/
def compound_id_marg (model1 model2 : List Compound) : ℚ :=
  ((model1.product model2).countP (fun p => id_equals p.1.id p.2.id) : ℕ) /
    (compound_pairs model1 model2 : ℕ)

/-- Marginal probability of observing two similar names. -/
def compound_name_marg (model1 model2 : List Compound) : ℚ :=
  ((model1.product model2).countP (fun p => name_equals p.1.name p.2.name) : ℕ) /
    (compound_pairs model1 model2 : ℕ)

/-- Marginal probability of observing two compounds with the same charge. -/
def compound_charge_equal_marg (model1 model2 : List Compound) : ℚ :=
  ((model1.product model2).countP (fun p => decide
      (p.1.charge ≠ none ∧ p.2.charge ≠ none ∧ p.1.charge = p.2.charge)) : ℕ) /
    (compound_pairs model1 model2 : ℕ)

/-- Marginal probability of observing two compounds with different charge. -/
def compound_charge_not_equal_marg (model1 model2 : List Compound) : ℚ :=
  ((model1.product model2).countP (fun p => decide
      (p.1.charge ≠ none ∧ p.2.charge ≠ none ∧ p.1.charge ≠ p.2.charge)) : ℕ) /
    (compound_pairs model1 model2 : ℕ)

/-- Marginal probability of observing two compounds with the same formula. -/
def compound_formula_equal_marg (model1 model2 : List Compound) : ℚ :=
  ((model1.product model2).countP (fun p =>
      formula_equals p.1.formula p.2.formula p.1.charge p.2.charge) : ℕ) /
    (compound_pairs model1 model2 : ℕ)

/-- Marginal probability of observing two compounds with different formula. -/
def compound_formula_not_equal_marg (model1 model2 : List Compound) : ℚ :=
  1.0 - compound_formula_equal_marg model1 model2 -
    ((model1.product model2).countP (fun p => decide
        (p.1.formula = none ∨ p.2.formula = none)) : ℕ) /
      (compound_pairs model1 model2 : ℕ)

/-- Marginal probability of observing two compounds with equal KEGG ids. -/
def compound_kegg_equal_marg (model1 model2 : List Compound) : ℚ :=
  ((model1.product model2).countP (fun p => decide
      (p.1.kegg ≠ none ∧ p.2.kegg ≠ none ∧ p.1.kegg = p.2.kegg)) : ℕ) /
    (compound_pairs model1 model2 : ℕ)

/-- Marginal probability of observing two compounds with different KEGG ids. -/
def compound_kegg_not_equal_marg (model1 model2 : List Compound) : ℚ :=
  ((model1.product model2).countP (fun p => decide
      (p.1.kegg ≠ none ∧ p.2.kegg ≠ none ∧ p.1.kegg ≠ p.2.kegg)) : ℕ) /
    (compound_pairs model1 model2 : ℕ)

/-- Embeds `map_model_compounds`: the six posterior tables (joint, id, name,
charge, formula, kegg).  The source divides by `compound_pairs` when
computing the prior (and every marginal) without a guard, so an empty model
on either side raises `ZeroDivisionError`; that fault is the `Except.error`
branch.  The diagnostic log output is omitted. -/
def map_model_compounds (model1 model2 : List Compound) (kegg : Bool) :
    Except String ((Compound × Compound → ℚ) × (Compound × Compound → ℚ) ×
      (Compound × Compound → ℚ) × (Compound × Compound → ℚ) ×
      (Compound × Compound → ℚ) × (Compound × Compound → ℚ)) :=
  if compound_pairs model1 model2 = 0 then
    Except.error "ZeroDivisionError: float division by zero"
  else
    let prior := compound_prior model1 model2
    let compound_id_likelihoods := pairwise_likelihood (fun c1 c2 =>
      compound_id_likelihood c1 c2 prior (compound_id_marg model1 model2))
    let compound_name_likelihoods := pairwise_likelihood (fun c1 c2 =>
      compound_name_likelihood c1 c2 prior (compound_name_marg model1 model2))
    let compound_charge_likelihoods := pairwise_likelihood (fun c1 c2 =>
      compound_charge_likelihood c1 c2 prior
        (compound_charge_equal_marg model1 model2)
        (compound_charge_not_equal_marg model1 model2))
    let compound_formula_likelihoods := pairwise_likelihood (fun c1 c2 =>
      compound_formula_likelihood c1 c2 prior
        (compound_formula_equal_marg model1 model2)
        (compound_formula_not_equal_marg model1 model2))
    let compound_kegg_likelihoods :=
      if kegg then
        pairwise_likelihood (fun c1 c2 =>
          compound_kegg_likelihood c1 c2 prior
            (compound_kegg_equal_marg model1 model2)
            (compound_kegg_not_equal_marg model1 model2))
      else
        pairwise_likelihood fake_likelihood
    let all_likelihoods := [compound_id_likelihoods,
      compound_name_likelihoods, compound_charge_likelihoods,
      compound_formula_likelihoods, compound_kegg_likelihoods]
    Except.ok
      (bayes_posterior prior (likelihood_products all_likelihoods),
       bayes_posterior prior compound_id_likelihoods,
       bayes_posterior prior compound_name_likelihoods,
       bayes_posterior prior compound_charge_likelihoods,
       bayes_posterior prior compound_formula_likelihoods,
       bayes_posterior prior compound_kegg_likelihoods)

/-! ### Reaction mapping driver (bayesian.py lines 597-697) -/

/-- Size of the reaction cross product. -/
def reaction_pairs (model1 model2 : List Reaction) : ℕ :=
  model1.length * model2.length

/-- The reaction prior, analogous to `compound_prior`. -/
def reaction_prior (model1 model2 : List Reaction) : ℚ :=
  (0.95 * (min model1.length model2.length : ℕ)) /
    (reaction_pairs model1 model2 : ℕ)

/-- Marginal probability of observing two reactions with the same ids. -/
def reaction_id_equal_marg (model1 model2 : List Reaction) : ℚ :=
  ((model1.product model2).countP (fun p => id_equals p.1.id p.2.id) : ℕ) /
    (reaction_pairs model1 model2 : ℕ)

/-- Marginal probability of observing two reactions with different ids. -/
def reaction_id_not_equal_marg (model1 model2 : List Reaction) : ℚ :=
  1.0 - reaction_id_equal_marg model1 model2

/-- Marginal probability of observing two reactions with the same name. -/
def reaction_name_equal_marg (model1 model2 : List Reaction) : ℚ :=
  ((model1.product model2).countP (fun p => name_equals p.1.name p.2.name) : ℕ) /
    (reaction_pairs model1 model2 : ℕ)

/-- Embeds `map_model_reactions`: the five posterior tables (joint, id, name,
equation, genes).  Same unguarded division on an empty cross product as
`map_model_compounds`. -/
def map_model_reactions (model1 model2 : List Reaction)
    (cpd_pred : List ((String × String) × ℚ)) (gene : Bool) :
    Except String ((Reaction × Reaction → ℚ) × (Reaction × Reaction → ℚ) ×
      (Reaction × Reaction → ℚ) × (Reaction × Reaction → ℚ) ×
      (Reaction × Reaction → ℚ)) :=
  if reaction_pairs model1 model2 = 0 then
    Except.error "ZeroDivisionError: float division by zero"
  else
    let prior := reaction_prior model1 model2
    let reaction_id_likelihoods := pairwise_likelihood (fun r1 r2 =>
      reaction_id_likelihood r1 r2 prior
        (reaction_id_equal_marg model1 model2)
        (reaction_id_not_equal_marg model1 model2))
    let reaction_name_likelihoods := pairwise_likelihood (fun r1 r2 =>
      reaction_name_likelihood r1 r2 prior
        (reaction_name_equal_marg model1 model2))
    let reaction_equation_likelihoods := pairwise_likelihood (fun r1 r2 =>
      reaction_equation_compound_mapping_likelihood r1 r2 cpd_pred)
    let reaction_genes_likelihoods :=
      if gene then
        pairwise_likelihood (fun r1 r2 => reaction_genes_likelihood r1 r2)
      else
        pairwise_likelihood fake_likelihood
    let all_likelihoods := [reaction_id_likelihoods,
      reaction_name_likelihoods, reaction_equation_likelihoods,
      reaction_genes_likelihoods]
    Except.ok
      (bayes_posterior prior (likelihood_products all_likelihoods),
       bayes_posterior prior reaction_id_likelihoods,
       bayes_posterior prior reaction_name_likelihoods,
       bayes_posterior prior reaction_equation_likelihoods,
       bayes_posterior prior reaction_genes_likelihoods)

/-! ### Best-match selection (bayesian.py lines 66-76 and 109-119) -/

/-- The pandas `groupby(query).rank(method='min', ascending=False)` of a row
of the raw mapping table: one plus the number of rows for the same query
entity with a strictly larger posterior. -/
def rank_min_desc (raw_map : List ((String × String) × ℚ))
    (row : (String × String) × ℚ) : ℕ :=
  1 + (raw_map.filter (fun r =>
    decide (r.1.1 = row.1.1) && decide (row.2 < r.2))).length

/-- Embeds `get_best_map` (shared by both predictors): keep the rows of rank
1 within their query group — every tie for the maximum is retained — then
filter by `p >= threshold`. -/
def get_best_map (threshold : ℚ) (raw_map : List ((String × String) × ℚ)) :
    List ((String × String) × ℚ) :=
  (raw_map.filter (fun row => rank_min_desc raw_map row = 1)).filter
    (fun row => decide (threshold ≤ row.2))

/-! ### Concrete entities used to instantiate the theorems -/

/-- A one-compound model: both models consisting of just this compound give
`compound_prior = 0.95` and `compound_id_marg = 1`. -/
def atp : Compound := { id := "atp" }

/-- A fully annotated compound. -/
def cw1 : Compound :=
  { id := "h2o", name := some "Water", charge := some 0,
    formula := some "H2O", kegg := some "C00001" }

/-- A second fully annotated compound. -/
def cw2 : Compound :=
  { id := "h2o2", name := some "Hydrogen peroxide", charge := some 0,
    formula := some "H2O2", kegg := some "C00027" }

/-- A reaction with a defined name, equation and gene set. -/
def rw1 : Reaction :=
  { id := "pk", name := some "Pyruvate kinase",
    equation := some [("A", -1), ("B", 1)], genes := some {"g1", "g2"} }

/-- A second reaction with a defined name, equation and gene set. -/
def rw2 : Reaction :=
  { id := "pyk", name := some "pyruvate kinase",
    equation := some [("A", -1), ("B", 1)], genes := some {"g2"} }

/-- A small compound posterior table with scores in `[0, 1]`. -/
def predw : List ((String × String) × ℚ) :=
  [(("A", "A"), 1/2), (("B", "B"), 1/2), (("A", "B"), 99/100),
   (("B", "A"), 99/100)]

/-! ## Claim theorems -/

/-- C5: the spec (§7) requires that empty entity collections yield an empty
result table rather than a division-by-zero fault, but both drivers compute
the prior as `0.95 * min(n, m) / (n * m)` with no guard, so an empty model on
either side makes the Python code raise `ZeroDivisionError` before any table
is produced. -/
theorem C5_empty_model_zero_division :
    (∀ (model2 : List Compound) (kegg : Bool),
      map_model_compounds [] model2 kegg =
        Except.error "ZeroDivisionError: float division by zero") ∧
    (∀ (model1 : List Compound) (kegg : Bool),
      map_model_compounds model1 [] kegg =
        Except.error "ZeroDivisionError: float division by zero") ∧
    (∀ (model2 : List Reaction) (cpd_pred : List ((String × String) × ℚ))
      (gene : Bool),
      map_model_reactions [] model2 cpd_pred gene =
        Except.error "ZeroDivisionError: float division by zero") ∧
    (∀ (model1 : List Reaction) (cpd_pred : List ((String × String) × ℚ))
      (gene : Bool),
      map_model_reactions model1 [] cpd_pred gene =
        Except.error "ZeroDivisionError: float division by zero") := by
  refine ⟨?_, ?_, ?_, ?_⟩ <;> intros <;>
    simp [map_model_compounds, map_model_reactions, compound_pairs,
      reaction_pairs]

/-- C10: when an optional channel is disabled its table is built from
`fake_likelihood`, which returns `(1, 1)` on every pair; multiplying that
table into the joint likelihood product is the identity, and the disabled
channel's per-channel posterior equals the prior on every pair. -/
theorem C10_fake_channel_neutral :
    (∀ (α β : Type) (e1 : α) (e2 : β), fake_likelihood e1 e2 = (1, 1)) ∧
    (∀ (α β : Type) (likelihood_dfs : List (α × β → ℚ × ℚ)) (k : α × β),
      likelihood_products (likelihood_dfs ++ [pairwise_likelihood fake_likelihood]) k =
        likelihood_products likelihood_dfs k) ∧
    (∀ (α β : Type) (prior : ℚ) (k : α × β),
      bayes_posterior prior (pairwise_likelihood fake_likelihood) k = prior) := by
  refine ⟨fun α β e1 e2 => rfl, ?_, ?_⟩
  · intro α β dfs k
    rw [likelihood_products, likelihood_products, List.foldl_append]
    simp [pairwise_likelihood, fake_likelihood]
  · intro α β prior k
    show prior * 1 / (prior * 1 + (1.0 - prior) * 1) = prior
    have h1 : prior * 1 + (1.0 - prior) * 1 = 1 := by ring
    rw [h1, mul_one, div_one]

/-- C8: `get_best_map threshold raw_map` contains exactly the rows whose
posterior is at least the threshold and equals the maximum posterior
achieved by the row's query entity over all rows of the raw table; every
candidate tied at that maximum is retained. -/
theorem C8_get_best_map_spec (threshold : ℚ)
    (raw_map : List ((String × String) × ℚ)) (row : (String × String) × ℚ) :
    row ∈ get_best_map threshold raw_map ↔
      row ∈ raw_map ∧ threshold ≤ row.2 ∧
        ∀ r ∈ raw_map, r.1.1 = row.1.1 → r.2 ≤ row.2 := by
  have key : (rank_min_desc raw_map row = 1) ↔
      ∀ r ∈ raw_map, r.1.1 = row.1.1 → r.2 ≤ row.2 := by
    rw [rank_min_desc]
    have h1 : (1 + (raw_map.filter (fun r =>
        decide (r.1.1 = row.1.1) && decide (row.2 < r.2))).length = 1) ↔
        ((raw_map.filter (fun r =>
          decide (r.1.1 = row.1.1) && decide (row.2 < r.2))).length = 0) := by
      omega
    rw [h1, List.length_eq_zero, List.filter_eq_nil_iff]
    constructor
    · intro h r hr hq
      have := h r hr
      simp only [Bool.and_eq_true, decide_eq_true_eq, not_and] at this
      exact not_lt.mp (this hq)
    · intro h r hr
      simp only [Bool.and_eq_true, decide_eq_true_eq, not_and]
      intro hq
      exact not_lt.mpr (h r hr hq)
  simp only [get_best_map, List.mem_filter, decide_eq_true_eq, key]
  tauto

/-- C7: for a fixed prior in (0,1), `bayes_posterior` is monotone (strictly,
away from the degenerate zero-likelihood boundary) increasing in the match
likelihood and decreasing in the no-match likelihood of the pair entry. -/
theorem C7_bayes_posterior_monotone (prior p1 q1 p2 q2 : ℚ)
    (hp0 : 0 < prior) (hp1 : prior < 1) :
    (0 ≤ p1 → p1 ≤ q1 → 0 ≤ p2 →
      bayes_posterior prior (fun _ : Unit => (p1, p2)) () ≤
        bayes_posterior prior (fun _ : Unit => (q1, p2)) ()) ∧
    (0 ≤ p1 → 0 ≤ p2 → p2 ≤ q2 →
      bayes_posterior prior (fun _ : Unit => (p1, q2)) () ≤
        bayes_posterior prior (fun _ : Unit => (p1, p2)) ()) ∧
    (0 ≤ p1 → p1 < q1 → 0 < p2 →
      bayes_posterior prior (fun _ : Unit => (p1, p2)) () <
        bayes_posterior prior (fun _ : Unit => (q1, p2)) ()) ∧
    (0 < p1 → 0 ≤ p2 → p2 < q2 →
      bayes_posterior prior (fun _ : Unit => (p1, q2)) () <
        bayes_posterior prior (fun _ : Unit => (p1, p2)) ()) := by
  have hb : 0 < 1 - prior := by linarith
  have hone : (1.0 : ℚ) = 1 := by norm_num
  simp only [bayes_posterior, hone]
  refine ⟨?_, ?_, ?_, ?_⟩
  · intro h1 h12 h2
    have hq1 : 0 ≤ q1 := le_trans h1 h12
    rcases eq_or_lt_of_le h2 with h2z | h2p
    · rcases eq_or_lt_of_le h1 with h1z | h1p
      · rw [← h1z, ← h2z]
        simp only [mul_zero, add_zero, zero_div]
        exact div_nonneg (mul_nonneg hp0.le hq1) (mul_nonneg hp0.le hq1)
      · have hq1p : 0 < q1 := lt_of_lt_of_le h1p h12
        rw [← h2z]
        have e1 : prior * p1 + (1 - prior) * 0 = prior * p1 := by ring
        have e2 : prior * q1 + (1 - prior) * 0 = prior * q1 := by ring
        rw [e1, e2, div_self (mul_pos hp0 h1p).ne',
          div_self (mul_pos hp0 hq1p).ne']
    · have hd1 : 0 < prior * p1 + (1 - prior) * p2 := by
        nlinarith [mul_nonneg hp0.le h1, mul_pos hb h2p]
      have hd2 : 0 < prior * q1 + (1 - prior) * p2 := by
        nlinarith [mul_nonneg hp0.le hq1, mul_pos hb h2p]
      rw [div_le_div_iff hd1 hd2]
      nlinarith [mul_nonneg (mul_nonneg (mul_nonneg hp0.le hb.le) h2p.le)
        (sub_nonneg.mpr h12)]
  · intro h1 h2 h22
    have hq2 : 0 ≤ q2 := le_trans h2 h22
    rcases eq_or_lt_of_le h1 with h1z | h1p
    · rw [← h1z]
      simp only [mul_zero, zero_div]
      exact le_refl 0
    · have hd1 : 0 < prior * p1 + (1 - prior) * q2 := by
        nlinarith [mul_pos hp0 h1p, mul_nonneg hb.le hq2]
      have hd2 : 0 < prior * p1 + (1 - prior) * p2 := by
        nlinarith [mul_pos hp0 h1p, mul_nonneg hb.le h2]
      rw [div_le_div_iff hd1 hd2]
      nlinarith [mul_nonneg (mul_nonneg (mul_nonneg hp0.le hb.le) h1p.le)
        (sub_nonneg.mpr h22)]
  · intro h1 h12 h2p
    have hq1 : 0 ≤ q1 := le_trans h1 h12.le
    have hd1 : 0 < prior * p1 + (1 - prior) * p2 := by
      nlinarith [mul_nonneg hp0.le h1, mul_pos hb h2p]
    have hd2 : 0 < prior * q1 + (1 - prior) * p2 := by
      nlinarith [mul_nonneg hp0.le hq1, mul_pos hb h2p]
    rw [div_lt_div_iff hd1 hd2]
    nlinarith [mul_pos (mul_pos (mul_pos hp0 hb) h2p) (sub_pos.mpr h12)]
  · intro h1 h2 h22
    have hq2 : 0 ≤ q2 := le_trans h2 h22.le
    have hd1 : 0 < prior * p1 + (1 - prior) * q2 := by
      nlinarith [mul_pos hp0 h1, mul_nonneg hb.le hq2]
    have hd2 : 0 < prior * p1 + (1 - prior) * p2 := by
      nlinarith [mul_pos hp0 h1, mul_nonneg hb.le h2]
    rw [div_lt_div_iff hd1 hd2]
    nlinarith [mul_pos (mul_pos (mul_pos hp0 hb) h1) (sub_pos.mpr h22)]

/-- C7 witness: the theorem applied at prior 1/2 with likelihood pairs
(1/4, 1/2) and (3/4, 1/4). -/
theorem C7_bayes_posterior_monotone_witness :
    bayes_posterior (1/2) (fun _ : Unit => ((1/4 : ℚ), (1/2 : ℚ))) () <
      bayes_posterior (1/2) (fun _ : Unit => ((3/4 : ℚ), (1/2 : ℚ))) () :=
  (C7_bayes_posterior_monotone (1/2) (1/4) (3/4) (1/2) (1/4)
    (by norm_num) (by norm_num)).2.2.1 (by norm_num) (by norm_num) (by norm_num)

/-- C2 counterexample: neither name channel tests for an undefined name;
with the first name undefined they return a branch-constant pair whose match
component is 0.40 (compound) or 0.41 (reaction), not (1, 1). -/
theorem C2_cex_name_channels_not_neutral :
    compound_name_likelihood { id := "c1" } { id := "c2", name := some "Water" }
        (1/2) (1/2) ≠ (1, 1) ∧
    reaction_name_likelihood { id := "r1" } { id := "r2", name := some "PK" }
        (1/2) (1/2) ≠ (1, 1) := by
  constructor <;>
  · intro h
    have h1 := congrArg Prod.fst h
    norm_num [compound_name_likelihood, reaction_name_likelihood,
      name_equals] at h1

/-- C2 amended: the undefined-attribute neutral rule `likelihood = (1, 1)`
holds exactly for the channels that test for undefined values — compound
charge, compound formula, compound kegg, reaction equation and reaction
genes.  The compound and reaction name channels apply the comparator
regardless and always return a branch-constant pair (see the
counterexample), and the id channels treat identifiers as always defined. -/
theorem C2_undefined_neutral_amended :
    (∀ (c : Compound) (i : String) (n f k : Option String) (p m m' : ℚ),
      compound_charge_likelihood c ⟨i, n, none, f, k⟩ p m m' = (1, 1) ∧
      compound_charge_likelihood ⟨i, n, none, f, k⟩ c p m m' = (1, 1)) ∧
    (∀ (c : Compound) (i : String) (n k : Option String) (ch : Option Int)
      (p m m' : ℚ),
      compound_formula_likelihood c ⟨i, n, ch, none, k⟩ p m m' = (1, 1) ∧
      compound_formula_likelihood ⟨i, n, ch, none, k⟩ c p m m' = (1, 1)) ∧
    (∀ (c : Compound) (i : String) (n f : Option String) (ch : Option Int)
      (p m m' : ℚ),
      compound_kegg_likelihood c ⟨i, n, ch, f, none⟩ p m m' = (1, 1) ∧
      compound_kegg_likelihood ⟨i, n, ch, f, none⟩ c p m m' = (1, 1)) ∧
    (∀ (r : Reaction) (i : String) (n : Option String)
      (g : Option (Finset String)) (cpd_pred : List ((String × String) × ℚ)),
      reaction_equation_compound_mapping_likelihood r ⟨i, n, none, g⟩ cpd_pred
        = (1, 1) ∧
      reaction_equation_compound_mapping_likelihood ⟨i, n, none, g⟩ r cpd_pred
        = (1, 1)) ∧
    (∀ (r : Reaction) (i : String) (n : Option String) (e : Option Equation),
      reaction_genes_likelihood r ⟨i, n, e, none⟩ = (1, 1) ∧
      reaction_genes_likelihood ⟨i, n, e, none⟩ r = (1, 1)) := by
  refine ⟨?_, ?_, ?_, ?_, ?_⟩
  · intro c i n f k p m m'
    obtain ⟨ci, cn, cch, cf, ck⟩ := c
    exact ⟨by cases cch <;> rfl, by cases cch <;> rfl⟩
  · intro c i n k ch p m m'
    obtain ⟨ci, cn, cch, cf, ck⟩ := c
    exact ⟨by cases cf <;> rfl, by cases cf <;> rfl⟩
  · intro c i n f ch p m m'
    obtain ⟨ci, cn, cch, cf, ck⟩ := c
    exact ⟨by cases ck <;> rfl, by cases ck <;> rfl⟩
  · intro r i n g cpd_pred
    obtain ⟨ri, rn, re, rg⟩ := r
    exact ⟨by cases re <;> rfl, by cases re <;> rfl⟩
  · intro r i n e
    obtain ⟨ri, rn, re, rg⟩ := r
    exact ⟨by cases rg <;> rfl, by cases rg <;> rfl⟩

/-- C3: in both branches of every scalar-evidence channel (with both
attributes defined where the channel is optional) the no-match value is
`max 0 ((marginal of the observed outcome - match constant * prior) /
(1 - prior))`, the match constant being the channel's returned first
component.  The id / name channels derive the non-equal outcome's marginal
as `1 - marg` inline; the charge / formula / kegg / reaction-id channels
take a separately estimated marginal per outcome. -/
theorem C3_no_match_back_solve (prior : ℚ) (hp0 : 0 < prior) (hp1 : prior < 1) :
    (∀ (c1 c2 : Compound) (marg : ℚ),
      (compound_id_likelihood c1 c2 prior marg).2 =
        max 0 (((if id_equals c1.id c2.id then marg else 1 - marg) -
          (compound_id_likelihood c1 c2 prior marg).1 * prior) / (1 - prior))) ∧
    (∀ (c1 c2 : Compound) (marg : ℚ),
      (compound_name_likelihood c1 c2 prior marg).2 =
        max 0 (((if name_equals c1.name c2.name then marg else 1 - marg) -
          (compound_name_likelihood c1 c2 prior marg).1 * prior) / (1 - prior))) ∧
    (∀ (i1 i2 : String) (n1 n2 f1 f2 k1 k2 : Option String) (ch1 ch2 : Int)
      (em nm : ℚ),
      (compound_charge_likelihood ⟨i1, n1, some ch1, f1, k1⟩
          ⟨i2, n2, some ch2, f2, k2⟩ prior em nm).2 =
        max 0 (((if ch1 = ch2 then em else nm) -
          (compound_charge_likelihood ⟨i1, n1, some ch1, f1, k1⟩
            ⟨i2, n2, some ch2, f2, k2⟩ prior em nm).1 * prior) / (1 - prior))) ∧
    (∀ (i1 i2 fo1 fo2 : String) (n1 n2 k1 k2 : Option String)
      (ch1 ch2 : Option Int) (em nm : ℚ),
      (compound_formula_likelihood ⟨i1, n1, ch1, some fo1, k1⟩
          ⟨i2, n2, ch2, some fo2, k2⟩ prior em nm).2 =
        max 0 (((if formula_equals (some fo1) (some fo2) ch1 ch2 then em else nm) -
          (compound_formula_likelihood ⟨i1, n1, ch1, some fo1, k1⟩
            ⟨i2, n2, ch2, some fo2, k2⟩ prior em nm).1 * prior) / (1 - prior))) ∧
    (∀ (i1 i2 ke1 ke2 : String) (n1 n2 f1 f2 : Option String)
      (ch1 ch2 : Option Int) (em nm : ℚ),
      (compound_kegg_likelihood ⟨i1, n1, ch1, f1, some ke1⟩
          ⟨i2, n2, ch2, f2, some ke2⟩ prior em nm).2 =
        max 0 (((if ke1 = ke2 then em else nm) -
          (compound_kegg_likelihood ⟨i1, n1, ch1, f1, some ke1⟩
            ⟨i2, n2, ch2, f2, some ke2⟩ prior em nm).1 * prior) / (1 - prior))) ∧
    (∀ (r1 r2 : Reaction) (em nm : ℚ),
      (reaction_id_likelihood r1 r2 prior em nm).2 =
        max 0 (((if id_equals r1.id r2.id then em else nm) -
          (reaction_id_likelihood r1 r2 prior em nm).1 * prior) / (1 - prior))) ∧
    (∀ (r1 r2 : Reaction) (marg : ℚ),
      (reaction_name_likelihood r1 r2 prior marg).2 =
        max 0 (((if name_equals r1.name r2.name then marg else 1 - marg) -
          (reaction_name_likelihood r1 r2 prior marg).1 * prior) / (1 - prior))) := by
  refine ⟨?_, ?_, ?_, ?_, ?_, ?_, ?_⟩
  · intro c1 c2 marg
    by_cases h : id_equals c1.id c2.id = true <;>
      simp only [compound_id_likelihood, h, if_true, if_false,
        Bool.not_eq_true] at * <;>
      norm_num [h]
  · intro c1 c2 marg
    by_cases h : name_equals c1.name c2.name = true <;>
      simp only [compound_name_likelihood, h, if_true, if_false,
        Bool.not_eq_true] at * <;>
      norm_num [h]
  · intro i1 i2 n1 n2 f1 f2 k1 k2 ch1 ch2 em nm
    by_cases h : ch1 = ch2 <;>
      simp only [compound_charge_likelihood, h, if_true, if_false] <;>
      norm_num [h]
  · intro i1 i2 fo1 fo2 n1 n2 k1 k2 ch1 ch2 em nm
    by_cases h : formula_equals (some fo1) (some fo2) ch1 ch2 = true <;>
      simp only [compound_formula_likelihood, h, if_true, if_false,
        Bool.not_eq_true] at * <;>
      norm_num [h]
  · intro i1 i2 ke1 ke2 n1 n2 f1 f2 ch1 ch2 em nm
    by_cases h : ke1 = ke2 <;>
      simp only [compound_kegg_likelihood, h, if_true, if_false] <;>
      norm_num [h]
  · intro r1 r2 em nm
    by_cases h : id_equals r1.id r2.id = true <;>
      simp only [reaction_id_likelihood, h, if_true, if_false,
        Bool.not_eq_true] at * <;>
      norm_num [h]
  · intro r1 r2 marg
    by_cases h : name_equals r1.name r2.name = true <;>
      simp only [reaction_name_likelihood, h, if_true, if_false,
        Bool.not_eq_true] at * <;>
      norm_num [h]

/-- C3 witness: the theorem applied at prior 1/2 (which lies in (0,1)) with
marginals 1/3 and 1/4, on concrete fully annotated entities. -/
theorem C3_no_match_back_solve_witness :
    (0 : ℚ) < 1/2 ∧ (1/2 : ℚ) < 1 ∧
    ((compound_id_likelihood cw1 cw2 (1/2) (1/3)).2 =
      max 0 (((if id_equals cw1.id cw2.id then (1/3 : ℚ) else 1 - 1/3) -
        (compound_id_likelihood cw1 cw2 (1/2) (1/3)).1 * (1/2)) / (1 - 1/2))) ∧
    ((compound_name_likelihood cw1 cw2 (1/2) (1/3)).2 =
      max 0 (((if name_equals cw1.name cw2.name then (1/3 : ℚ) else 1 - 1/3) -
        (compound_name_likelihood cw1 cw2 (1/2) (1/3)).1 * (1/2)) / (1 - 1/2))) ∧
    ((compound_charge_likelihood ⟨"h2o", some "Water", some 0, some "H2O", some "C00001"⟩
        ⟨"h2o2", some "Hydrogen peroxide", some 0, some "H2O2", some "C00027"⟩
        (1/2) (1/3) (1/4)).2 =
      max 0 (((if (0 : ℤ) = 0 then (1/3 : ℚ) else 1/4) -
        (compound_charge_likelihood ⟨"h2o", some "Water", some 0, some "H2O", some "C00001"⟩
          ⟨"h2o2", some "Hydrogen peroxide", some 0, some "H2O2", some "C00027"⟩
          (1/2) (1/3) (1/4)).1 * (1/2)) / (1 - 1/2))) ∧
    ((compound_formula_likelihood ⟨"h2o", some "Water", some 0, some "H2O", some "C00001"⟩
        ⟨"h2o2", some "Hydrogen peroxide", some 0, some "H2O2", some "C00027"⟩
        (1/2) (1/3) (1/4)).2 =
      max 0 (((if formula_equals (some "H2O") (some "H2O2") (some 0) (some 0)
            then (1/3 : ℚ) else 1/4) -
        (compound_formula_likelihood ⟨"h2o", some "Water", some 0, some "H2O", some "C00001"⟩
          ⟨"h2o2", some "Hydrogen peroxide", some 0, some "H2O2", some "C00027"⟩
          (1/2) (1/3) (1/4)).1 * (1/2)) / (1 - 1/2))) ∧
    ((compound_kegg_likelihood ⟨"h2o", some "Water", some 0, some "H2O", some "C00001"⟩
        ⟨"h2o2", some "Hydrogen peroxide", some 0, some "H2O2", some "C00027"⟩
        (1/2) (1/3) (1/4)).2 =
      max 0 (((if ("C00001" : String) = "C00027" then (1/3 : ℚ) else 1/4) -
        (compound_kegg_likelihood ⟨"h2o", some "Water", some 0, some "H2O", some "C00001"⟩
          ⟨"h2o2", some "Hydrogen peroxide", some 0, some "H2O2", some "C00027"⟩
          (1/2) (1/3) (1/4)).1 * (1/2)) / (1 - 1/2))) ∧
    ((reaction_id_likelihood rw1 rw2 (1/2) (1/3) (1/4)).2 =
      max 0 (((if id_equals rw1.id rw2.id then (1/3 : ℚ) else 1/4) -
        (reaction_id_likelihood rw1 rw2 (1/2) (1/3) (1/4)).1 * (1/2)) / (1 - 1/2))) ∧
    ((reaction_name_likelihood rw1 rw2 (1/2) (1/3)).2 =
      max 0 (((if name_equals rw1.name rw2.name then (1/3 : ℚ) else 1 - 1/3) -
        (reaction_name_likelihood rw1 rw2 (1/2) (1/3)).1 * (1/2)) / (1 - 1/2))) := by
  have h := C3_no_match_back_solve (1/2) (by norm_num) (by norm_num)
  exact ⟨by norm_num, by norm_num, h.1 cw1 cw2 (1/3), h.2.1 cw1 cw2 (1/3),
    h.2.2.1 "h2o" "h2o2" (some "Water") (some "Hydrogen peroxide")
      (some "H2O") (some "H2O2") (some "C00001") (some "C00027") 0 0 (1/3) (1/4),
    h.2.2.2.1 "h2o" "h2o2" "H2O" "H2O2" (some "Water") (some "Hydrogen peroxide")
      (some "C00001") (some "C00027") (some 0) (some 0) (1/3) (1/4),
    h.2.2.2.2.1 "h2o" "h2o2" "C00001" "C00027" (some "Water")
      (some "Hydrogen peroxide") (some "H2O") (some "H2O2") (some 0) (some 0)
      (1/3) (1/4),
    h.2.2.2.2.2.1 rw1 rw2 (1/3) (1/4), h.2.2.2.2.2.2 rw1 rw2 (1/3)⟩

/-! ### Helper lemmas about the equation matcher -/

theorem cpd_pred_lookup_mem {pred : List ((String × String) × ℚ)}
    {pr : String × String} {v : ℚ} (h : cpd_pred_lookup pred pr = some v) :
    (pr, v) ∈ pred := by
  induction pred with
  | nil => simp [cpd_pred_lookup] at h
  | cons e rest ih =>
    obtain ⟨k, w⟩ := e
    rw [cpd_pred_lookup] at h
    by_cases hk : k = pr
    · rw [if_pos hk] at h
      obtain rfl := Option.some.inj h
      simp [hk]
    · rw [if_neg hk] at h
      exact List.mem_cons_of_mem _ (ih h)

/-- Every candidate-pair element is literally an entry of the posterior
table. -/
theorem candidate_mem_pred {s1 s2 : List String}
    {pred : List ((String × String) × ℚ)} {x : (String × String) × ℚ}
    (hx : x ∈ candidate_pairs s1 s2 pred) : x ∈ pred := by
  rw [candidate_pairs] at hx
  simp only [List.mem_filterMap] at hx
  obtain ⟨pr, _, hmap⟩ := hx
  cases hl : cpd_pred_lookup pred pr with
  | none => rw [hl] at hmap; simp at hmap
  | some v =>
    rw [hl] at hmap
    simp only [Option.map_some'] at hmap
    obtain rfl := Option.some.inj hmap
    exact cpd_pred_lookup_mem hl

theorem insert_desc_perm (x : (String × String) × ℚ)
    (l : List ((String × String) × ℚ)) :
    List.Perm (insert_desc x l) (x :: l) := by
  induction l with
  | nil => simp [insert_desc]
  | cons y ys ih =>
    rw [insert_desc]
    split_ifs
    · exact List.Perm.refl _
    · exact (ih.cons y).trans (List.Perm.swap x y ys)

theorem sort_desc_perm (l : List ((String × String) × ℚ)) :
    List.Perm (sort_desc l) l := by
  suffices h : ∀ (l acc : List ((String × String) × ℚ)),
      List.Perm (List.foldl (fun acc x => insert_desc x acc) acc l) (l ++ acc) by
    simpa using h l []
  intro l
  induction l with
  | nil => intro acc; simp
  | cons x xs ih =>
    intro acc
    rw [List.foldl_cons]
    refine ((ih (insert_desc x acc)).trans ?_)
    refine (List.Perm.append_left xs (insert_desc_perm x acc)).trans ?_
    exact List.perm_middle

/-- Scores in `[0,1]` keep both greedy accumulators in `(0,1]`. -/
theorem greedy_loop_bounds :
    ∀ (cand : List ((String × String) × ℚ)) (s1 s2 : List String) (p : ℚ × ℚ),
      (∀ x ∈ cand, 0 ≤ x.2 ∧ x.2 ≤ 1) → 0 < p.1 → p.1 ≤ 1 → 0 < p.2 → p.2 ≤ 1 →
      0 < (greedy_loop cand s1 s2 p).1.1 ∧ (greedy_loop cand s1 s2 p).1.1 ≤ 1 ∧
        0 < (greedy_loop cand s1 s2 p).1.2 ∧ (greedy_loop cand s1 s2 p).1.2 ≤ 1
  | [], s1, s2, p => by
    intro _ h1 h2 h3 h4
    rw [greedy_loop]
    exact ⟨h1, h2, h3, h4⟩
  | (pr, score) :: rest, s1, s2, p => by
    intro hc h1 h2 h3 h4
    have hs := hc (pr, score) (List.mem_cons_self _ _)
    have hrest : ∀ x ∈ rest, 0 ≤ x.2 ∧ x.2 ≤ 1 := fun x hx =>
      hc x (List.mem_cons_of_mem _ hx)
    obtain ⟨hs0, hs1⟩ := hs
    rw [greedy_loop]
    split_ifs with hmem
    · have hf0 : 0 < score * 0.9 + (1 - score) * 0.1 := by nlinarith
      have hf1 : score * 0.9 + (1 - score) * 0.1 ≤ 1 := by nlinarith
      have hg0 : 0 < score * 0.1 + (1 - score) * 0.9 := by nlinarith
      have hg1 : score * 0.1 + (1 - score) * 0.9 ≤ 1 := by nlinarith
      exact greedy_loop_bounds rest (s1.erase pr.1) (s2.erase pr.2) _ hrest
        (mul_pos h1 hf0)
        (by nlinarith [mul_le_mul h2 hf1 hf0.le zero_le_one])
        (mul_pos h3 hg0)
        (by nlinarith [mul_le_mul h4 hg1 hg0.le zero_le_one])
    · exact greedy_loop_bounds rest s1 s2 p hrest h1 h2 h3 h4

/-- Scores in `[0,1]` keep the equation matcher's two outputs in `(0,1]`. -/
theorem reaction_equation_mapping_bounds (s1 s2 : List String)
    (pred : List ((String × String) × ℚ))
    (hpred : ∀ e ∈ pred, 0 ≤ e.2 ∧ e.2 ≤ 1) :
    0 < (reaction_equation_mapping_approx_max_likelihood s1 s2 pred).1.1 ∧
      (reaction_equation_mapping_approx_max_likelihood s1 s2 pred).1.1 ≤ 1 ∧
      0 < (reaction_equation_mapping_approx_max_likelihood s1 s2 pred).1.2 ∧
      (reaction_equation_mapping_approx_max_likelihood s1 s2 pred).1.2 ≤ 1 := by
  have hc : ∀ x ∈ sort_desc (candidate_pairs s1 s2 pred), 0 ≤ x.2 ∧ x.2 ≤ 1 :=
    fun x hx => hpred x (candidate_mem_pred
      ((sort_desc_perm (candidate_pairs s1 s2 pred)).subset hx))
  obtain ⟨h1, h2, h3, h4⟩ := greedy_loop_bounds
    (sort_desc (candidate_pairs s1 s2 pred)) s1 s2 (1, 1) hc
    one_pos le_rfl one_pos le_rfl
  simp only [reaction_equation_mapping_approx_max_likelihood]
  set G := greedy_loop (sort_desc (candidate_pairs s1 s2 pred)) s1 s2 (1, 1)
    with hG
  have hp1 : (0:ℚ) < (0.1 : ℚ) ^ (G.2.1.length + G.2.2.length) :=
    pow_pos (by norm_num) _
  have hp2 : (0.1 : ℚ) ^ (G.2.1.length + G.2.2.length) ≤ 1 :=
    pow_le_one₀ (by norm_num) (by norm_num)
  have hp3 : (0:ℚ) < (0.9 : ℚ) ^ (G.2.1.length + G.2.2.length) :=
    pow_pos (by norm_num) _
  have hp4 : (0.9 : ℚ) ^ (G.2.1.length + G.2.2.length) ≤ 1 :=
    pow_le_one₀ (by norm_num) (by norm_num)
  refine ⟨mul_pos h1 hp1, ?_, mul_pos h3 hp3, ?_⟩
  · nlinarith [mul_le_mul h2 hp2 hp1.le zero_le_one]
  · nlinarith [mul_le_mul h4 hp4 hp3.le zero_le_one]

/-- Scores in `[0,1]` keep both outputs of `merge_p_set` in `(0,1]`. -/
theorem merge_p_set_bounds (sa sb : List String)
    (pred : List ((String × String) × ℚ)) (sc sd : List String)
    (hpred : ∀ e ∈ pred, 0 ≤ e.2 ∧ e.2 ≤ 1) :
    0 < (merge_p_set sa sb pred sc sd).1.1 ∧
      (merge_p_set sa sb pred sc sd).1.1 ≤ 1 ∧
      0 < (merge_p_set sa sb pred sc sd).1.2 ∧
      (merge_p_set sa sb pred sc sd).1.2 ≤ 1 := by
  obtain ⟨a1, a2, a3, a4⟩ := reaction_equation_mapping_bounds sa sb pred hpred
  obtain ⟨b1, b2, b3, b4⟩ := reaction_equation_mapping_bounds sc sd pred hpred
  simp only [merge_p_set]
  exact ⟨mul_pos a1 b1, by nlinarith [mul_le_mul a2 b2 b1.le zero_le_one],
    mul_pos a3 b3, by nlinarith [mul_le_mul a4 b4 b3.le zero_le_one]⟩

/-- Scores in `[0,1]` keep both outputs of `get_best_p_value_set` in
`(0,1]`. -/
theorem get_best_p_value_set_bounds (eq1 eq2 : Equation)
    (pred : List ((String × String) × ℚ))
    (hpred : ∀ e ∈ pred, 0 ≤ e.2 ∧ e.2 ≤ 1) :
    0 < (get_best_p_value_set eq1 eq2 pred).1 ∧
      (get_best_p_value_set eq1 eq2 pred).1 ≤ 1 ∧
      0 < (get_best_p_value_set eq1 eq2 pred).2 ∧
      (get_best_p_value_set eq1 eq2 pred).2 ≤ 1 := by
  simp only [get_best_p_value_set]
  obtain ⟨f1, f2, f3, f4⟩ := merge_p_set_bounds (get_cpd_set eq1 true)
    (get_cpd_set eq2 true) pred (get_cpd_set eq1 false) (get_cpd_set eq2 false)
    hpred
  obtain ⟨r1, r2, r3, r4⟩ := merge_p_set_bounds
    ((merge_p_set (get_cpd_set eq1 true) (get_cpd_set eq2 true) pred
      (get_cpd_set eq1 false) (get_cpd_set eq2 false)).2.1.1)
    ((merge_p_set (get_cpd_set eq1 true) (get_cpd_set eq2 true) pred
      (get_cpd_set eq1 false) (get_cpd_set eq2 false)).2.2.2) pred
    ((merge_p_set (get_cpd_set eq1 true) (get_cpd_set eq2 true) pred
      (get_cpd_set eq1 false) (get_cpd_set eq2 false)).2.2.1)
    ((merge_p_set (get_cpd_set eq1 true) (get_cpd_set eq2 true) pred
      (get_cpd_set eq1 false) (get_cpd_set eq2 false)).2.1.2) hpred
  split_ifs
  · exact ⟨f1, f2, f3, f4⟩
  · exact ⟨r1, r2, r3, r4⟩

/-- C4 counterexample: with the prior and marginal the engine itself derives
for two identical one-compound models (compound_prior = 0.95, id marginal
= 1), the id channel's no-match likelihood is 7.65 = 153/20 > 1: not every
value produced by the engine lies in [0, 1]. -/
theorem C4_cex_no_match_above_one :
    compound_prior [atp] [atp] = 19/20 ∧
    compound_id_marg [atp] [atp] = 1 ∧
    compound_id_likelihood atp atp (compound_prior [atp] [atp])
      (compound_id_marg [atp] [atp]) = (13/20, 153/20) ∧
    ¬ ((compound_id_likelihood atp atp (compound_prior [atp] [atp])
      (compound_id_marg [atp] [atp])).2 ≤ 1) := by
  have hid : id_equals atp.id atp.id = true := by simp [id_equals]
  have hprior : compound_prior [atp] [atp] = 19/20 := by
    norm_num [compound_prior, compound_pairs]
  have hmarg : compound_id_marg [atp] [atp] = 1 := by
    norm_num [compound_id_marg, compound_pairs, List.product, hid]
  have hlik : compound_id_likelihood atp atp (19/20) 1 = (13/20, 153/20) := by
    rw [compound_id_likelihood, if_pos hid]
    have h2 : (1 - 0.65 * (19/20 : ℚ)) / (1.0 - 19/20) = 153/20 := by norm_num
    have h3 : (0:ℚ) ⊔ (153/20) = 153/20 := max_eq_right (by norm_num)
    simp only [h2, h3]
    norm_num
  refine ⟨hprior, hmarg, ?_, ?_⟩
  · rw [hprior, hmarg]; exact hlik
  · rw [hprior, hmarg, hlik]; norm_num

/-- C4 amended: every value the engine produces is nonnegative (negative
intermediate arithmetic is floored to 0); the match likelihoods lie in
(0, 1], the equation and genes channels produce both components in (0, 1],
and posteriors lie in [0, 1].  But the no-match likelihoods of the scalar
channels are only floored at 0 and can exceed 1 (see the counterexample),
so they are not probabilities in [0, 1]. -/
theorem C4_bounds_amended :
    (∀ (c1 c2 : Compound) (prior marg : ℚ),
      0 < (compound_id_likelihood c1 c2 prior marg).1 ∧
        (compound_id_likelihood c1 c2 prior marg).1 ≤ 1 ∧
        0 ≤ (compound_id_likelihood c1 c2 prior marg).2) ∧
    (∀ (c1 c2 : Compound) (prior marg : ℚ),
      0 < (compound_name_likelihood c1 c2 prior marg).1 ∧
        (compound_name_likelihood c1 c2 prior marg).1 ≤ 1 ∧
        0 ≤ (compound_name_likelihood c1 c2 prior marg).2) ∧
    (∀ (c1 c2 : Compound) (prior em nm : ℚ),
      0 < (compound_charge_likelihood c1 c2 prior em nm).1 ∧
        (compound_charge_likelihood c1 c2 prior em nm).1 ≤ 1 ∧
        0 ≤ (compound_charge_likelihood c1 c2 prior em nm).2) ∧
    (∀ (c1 c2 : Compound) (prior em nm : ℚ),
      0 < (compound_formula_likelihood c1 c2 prior em nm).1 ∧
        (compound_formula_likelihood c1 c2 prior em nm).1 ≤ 1 ∧
        0 ≤ (compound_formula_likelihood c1 c2 prior em nm).2) ∧
    (∀ (c1 c2 : Compound) (prior em nm : ℚ),
      0 < (compound_kegg_likelihood c1 c2 prior em nm).1 ∧
        (compound_kegg_likelihood c1 c2 prior em nm).1 ≤ 1 ∧
        0 ≤ (compound_kegg_likelihood c1 c2 prior em nm).2) ∧
    (∀ (r1 r2 : Reaction) (prior em nm : ℚ),
      0 < (reaction_id_likelihood r1 r2 prior em nm).1 ∧
        (reaction_id_likelihood r1 r2 prior em nm).1 ≤ 1 ∧
        0 ≤ (reaction_id_likelihood r1 r2 prior em nm).2) ∧
    (∀ (r1 r2 : Reaction) (prior marg : ℚ),
      0 < (reaction_name_likelihood r1 r2 prior marg).1 ∧
        (reaction_name_likelihood r1 r2 prior marg).1 ≤ 1 ∧
        0 ≤ (reaction_name_likelihood r1 r2 prior marg).2) ∧
    (∀ (r1 r2 : Reaction),
      0 < (reaction_genes_likelihood r1 r2).1 ∧
        (reaction_genes_likelihood r1 r2).1 ≤ 1 ∧
        0 < (reaction_genes_likelihood r1 r2).2 ∧
        (reaction_genes_likelihood r1 r2).2 ≤ 1) ∧
    (∀ (r1 r2 : Reaction) (cpd_pred : List ((String × String) × ℚ)),
      (∀ e ∈ cpd_pred, 0 ≤ e.2 ∧ e.2 ≤ 1) →
      0 < (reaction_equation_compound_mapping_likelihood r1 r2 cpd_pred).1 ∧
        (reaction_equation_compound_mapping_likelihood r1 r2 cpd_pred).1 ≤ 1 ∧
        0 < (reaction_equation_compound_mapping_likelihood r1 r2 cpd_pred).2 ∧
        (reaction_equation_compound_mapping_likelihood r1 r2 cpd_pred).2 ≤ 1) ∧
    (∀ (prior : ℚ) (df : String × String → ℚ × ℚ) (k : String × String),
      0 < prior → prior < 1 → 0 ≤ (df k).1 → 0 ≤ (df k).2 →
      0 < prior * (df k).1 + (1 - prior) * (df k).2 →
      0 ≤ bayes_posterior prior df k ∧ bayes_posterior prior df k ≤ 1) := by
  have hone : (1.0 : ℚ) = 1 := by norm_num
  refine ⟨?_, ?_, ?_, ?_, ?_, ?_, ?_, ?_, ?_, ?_⟩
  · intro c1 c2 prior marg
    unfold compound_id_likelihood
    split_ifs <;> exact ⟨by norm_num, by norm_num, le_max_left 0 _⟩
  · intro c1 c2 prior marg
    unfold compound_name_likelihood
    split_ifs <;> exact ⟨by norm_num, by norm_num, le_max_left 0 _⟩
  · intro c1 c2 prior em nm
    obtain ⟨i1, n1, ch1, f1, k1⟩ := c1
    obtain ⟨i2, n2, ch2, f2, k2⟩ := c2
    cases ch1 <;> cases ch2 <;> simp only [compound_charge_likelihood]
    · exact ⟨by norm_num, by norm_num, by norm_num⟩
    · exact ⟨by norm_num, by norm_num, by norm_num⟩
    · exact ⟨by norm_num, by norm_num, by norm_num⟩
    · split_ifs <;> exact ⟨by norm_num, by norm_num, le_max_left 0 _⟩
  · intro c1 c2 prior em nm
    obtain ⟨i1, n1, ch1, f1, k1⟩ := c1
    obtain ⟨i2, n2, ch2, f2, k2⟩ := c2
    cases f1 <;> cases f2 <;> simp only [compound_formula_likelihood]
    · exact ⟨by norm_num, by norm_num, by norm_num⟩
    · exact ⟨by norm_num, by norm_num, by norm_num⟩
    · exact ⟨by norm_num, by norm_num, by norm_num⟩
    · split_ifs <;> exact ⟨by norm_num, by norm_num, le_max_left 0 _⟩
  · intro c1 c2 prior em nm
    obtain ⟨i1, n1, ch1, f1, k1⟩ := c1
    obtain ⟨i2, n2, ch2, f2, k2⟩ := c2
    cases k1 <;> cases k2 <;> simp only [compound_kegg_likelihood]
    · exact ⟨by norm_num, by norm_num, by norm_num⟩
    · exact ⟨by norm_num, by norm_num, by norm_num⟩
    · exact ⟨by norm_num, by norm_num, by norm_num⟩
    · split_ifs <;> exact ⟨by norm_num, by norm_num, le_max_left 0 _⟩
  · intro r1 r2 prior em nm
    unfold reaction_id_likelihood
    split_ifs <;> exact ⟨by norm_num, by norm_num, le_max_left 0 _⟩
  · intro r1 r2 prior marg
    unfold reaction_name_likelihood
    split_ifs <;> exact ⟨by norm_num, by norm_num, le_max_left 0 _⟩
  · intro r1 r2
    obtain ⟨i1, n1, e1, g1⟩ := r1
    obtain ⟨i2, n2, e2, g2⟩ := r2
    cases g1 <;> cases g2 <;> simp only [reaction_genes_likelihood]
    · exact ⟨by norm_num, by norm_num, by norm_num, by norm_num⟩
    · exact ⟨by norm_num, by norm_num, by norm_num, by norm_num⟩
    · exact ⟨by norm_num, by norm_num, by norm_num, by norm_num⟩
    rename_i ga gb
    refine ⟨mul_pos (pow_pos (by norm_num) _) (pow_pos (by norm_num) _), ?_,
      mul_pos (pow_pos (by norm_num) _) (pow_pos (by norm_num) _), ?_⟩
    · have p1 : ((0.99 : ℚ)) ^ ((ga ∩ gb).card) ≤ 1 :=
        pow_le_one₀ (by norm_num) (by norm_num)
      have p2 : ((0.01 : ℚ)) ^ (((ga \ gb) ∪ (gb \ ga)).card) ≤ 1 :=
        pow_le_one₀ (by norm_num) (by norm_num)
      have p2p : (0:ℚ) < ((0.01 : ℚ)) ^ (((ga \ gb) ∪ (gb \ ga)).card) :=
        pow_pos (by norm_num) _
      nlinarith [mul_le_mul p1 p2 p2p.le zero_le_one]
    · have p1 : ((0.10 : ℚ)) ^ ((ga ∩ gb).card) ≤ 1 :=
        pow_le_one₀ (by norm_num) (by norm_num)
      have p2 : ((0.90 : ℚ)) ^ (((ga \ gb) ∪ (gb \ ga)).card) ≤ 1 :=
        pow_le_one₀ (by norm_num) (by norm_num)
      have p2p : (0:ℚ) < ((0.90 : ℚ)) ^ (((ga \ gb) ∪ (gb \ ga)).card) :=
        pow_pos (by norm_num) _
      nlinarith [mul_le_mul p1 p2 p2p.le zero_le_one]
  · intro r1 r2 cpd_pred hpred
    obtain ⟨i1, n1, e1, g1⟩ := r1
    obtain ⟨i2, n2, e2, g2⟩ := r2
    cases e1 <;> cases e2 <;>
      simp only [reaction_equation_compound_mapping_likelihood]
    · exact ⟨by norm_num, by norm_num, by norm_num, by norm_num⟩
    · exact ⟨by norm_num, by norm_num, by norm_num, by norm_num⟩
    · exact ⟨by norm_num, by norm_num, by norm_num, by norm_num⟩
    · exact get_best_p_value_set_bounds _ _ cpd_pred hpred
  · intro prior df k hp0 hp1 h1 h2 hsum
    simp only [bayes_posterior, hone]
    constructor
    · exact div_nonneg (mul_nonneg hp0.le h1) hsum.le
    · rw [div_le_one hsum]
      nlinarith [mul_nonneg (show (0:ℚ) ≤ 1 - prior by linarith) h2]

/-- C4 witness: the amended bounds applied to the concrete reactions `rw1`,
`rw2` over the concrete posterior table `predw` (whose scores lie in [0,1]),
and to a posterior evaluation at prior 1/2. -/
theorem C4_bounds_amended_witness :
    (0 < (reaction_equation_compound_mapping_likelihood rw1 rw2 predw).1 ∧
      (reaction_equation_compound_mapping_likelihood rw1 rw2 predw).1 ≤ 1 ∧
      0 < (reaction_equation_compound_mapping_likelihood rw1 rw2 predw).2 ∧
      (reaction_equation_compound_mapping_likelihood rw1 rw2 predw).2 ≤ 1) ∧
    (0 ≤ bayes_posterior (1/2)
        (fun _ : String × String => ((13/20 : ℚ), 153/20)) ("a", "b") ∧
      bayes_posterior (1/2)
        (fun _ : String × String => ((13/20 : ℚ), 153/20)) ("a", "b") ≤ 1) ∧
    0 < (compound_id_likelihood atp atp (1/2) (1/3)).1 := by
  have hw : ∀ e ∈ predw, 0 ≤ e.2 ∧ e.2 ≤ 1 := by
    intro e he
    simp only [predw, List.mem_cons, List.not_mem_nil, or_false] at he
    rcases he with rfl | rfl | rfl | rfl <;> norm_num
  refine ⟨C4_bounds_amended.2.2.2.2.2.2.2.2.1 rw1 rw2 predw hw, ?_, ?_⟩
  · exact C4_bounds_amended.2.2.2.2.2.2.2.2.2 (1/2)
      (fun _ => ((13/20 : ℚ), 153/20)) ("a", "b")
      (by norm_num) (by norm_num) (by norm_num) (by norm_num) (by norm_num)
  · exact (C4_bounds_amended.1 atp atp (1/2) (1/3)).1

/-! ### Helper lemmas about equation reversal -/

theorem cpd_filter_neg (l : Equation) (c : ℚ) :
    ((l.map (fun p => (p.1, -p.2))).filter
        (fun p => decide (c * p.2 < 0))).map Prod.fst =
      (l.filter (fun p => decide ((-c) * p.2 < 0))).map Prod.fst := by
  induction l with
  | nil => rfl
  | cons x xs ih =>
    simp only [List.map_cons, List.filter_cons, mul_neg, neg_mul]
    split_ifs
    · simp only [List.map_cons, ih, neg_mul]
    · simp only [ih, neg_mul]

theorem get_cpd_set_true (equation : Equation) :
    get_cpd_set equation true =
      ((equation.filter (fun p => decide ((1 : ℚ) * p.2 < 0))).map
        Prod.fst).dedup := rfl

theorem get_cpd_set_false (equation : Equation) :
    get_cpd_set equation false =
      ((equation.filter (fun p => decide ((-1 : ℚ) * p.2 < 0))).map
        Prod.fst).dedup := rfl

/-- Reversing an equation swaps its two compound sets exactly (same order,
same duplicates removed). -/
theorem get_cpd_set_reverse (equation : Equation) :
    get_cpd_set (reverse_equation equation) true = get_cpd_set equation false ∧
    get_cpd_set (reverse_equation equation) false = get_cpd_set equation true := by
  constructor
  · rw [get_cpd_set_true, get_cpd_set_false, reverse_equation,
      cpd_filter_neg equation 1]
  · rw [get_cpd_set_false, get_cpd_set_true, reverse_equation,
      cpd_filter_neg equation (-1)]
    simp only [neg_neg]

set_option maxHeartbeats 1000000 in
/-- C1: the equation matcher is direction-invariant — reversing both
reactions' equations (swapping each one's left and right compound sets)
yields the same (p_match, p_no_match) from `get_best_p_value_set`.  The
forward hypothesis of the reversed pair runs the same two greedy matches as
the original forward hypothesis (in the opposite order, on disjoint set
objects), and likewise for the reverse hypothesis on the depleted sets, so
both hypotheses' scores and the ratio comparison are unchanged. -/
theorem C1_direction_invariant (eq1 eq2 : Equation)
    (cpd_pred : List ((String × String) × ℚ)) :
    get_best_p_value_set (reverse_equation eq1) (reverse_equation eq2)
        cpd_pred =
      get_best_p_value_set eq1 eq2 cpd_pred := by
  obtain ⟨h1t, h1f⟩ := get_cpd_set_reverse eq1
  obtain ⟨h2t, h2f⟩ := get_cpd_set_reverse eq2
  unfold get_best_p_value_set
  simp only [h1t, h1f, h2t, h2f]
  simp only [merge_p_set]
  set A := reaction_equation_mapping_approx_max_likelihood
    (get_cpd_set eq1 true) (get_cpd_set eq2 true) cpd_pred with hA
  set B := reaction_equation_mapping_approx_max_likelihood
    (get_cpd_set eq1 false) (get_cpd_set eq2 false) cpd_pred with hB
  set C := reaction_equation_mapping_approx_max_likelihood B.2.1 A.2.2
    cpd_pred with hC
  set D := reaction_equation_mapping_approx_max_likelihood A.2.1 B.2.2
    cpd_pred with hD
  refine if_congr ?_ ?_ ?_
  · rw [mul_comm B.1.1 A.1.1, mul_comm B.1.2 A.1.2, mul_comm C.1.1 D.1.1,
      mul_comm C.1.2 D.1.2]
  · rw [mul_comm B.1.1 A.1.1, mul_comm B.1.2 A.1.2]
  · rw [mul_comm C.1.1 D.1.1, mul_comm C.1.2 D.1.2]

/-! ### Helper lemmas about the greedy matcher's set depletion -/

/-- Filtering after erasing one element of a duplicate-free list is
filtering against the extended exclusion list. -/
theorem filter_not_mem_erase (s : List String) (a : String) (M : List String)
    (h : s.Nodup) :
    (s.erase a).filter (fun c => decide (c ∉ M)) =
      s.filter (fun c => decide (c ∉ a :: M)) := by
  rw [List.Nodup.erase_eq_filter h, List.filter_filter]
  apply List.filter_congr
  intro c hc
  by_cases hcp : c = a <;> by_cases hcm : c ∈ M <;> simp [hcp, hcm]

/-- The sets coming out of the greedy loop are exactly the input sets with
the committed endpoints removed. -/
theorem greedy_loop_sets :
    ∀ (cand : List ((String × String) × ℚ)) (s1 s2 : List String) (p : ℚ × ℚ),
      s1.Nodup → s2.Nodup →
      (greedy_loop cand s1 s2 p).2.1 =
        s1.filter (fun c => decide
          (c ∉ (committed_loop cand s1 s2).map Prod.fst)) ∧
      (greedy_loop cand s1 s2 p).2.2 =
        s2.filter (fun c => decide
          (c ∉ (committed_loop cand s1 s2).map Prod.snd))
  | [], s1, s2, p => by
    intro h1 h2
    rw [greedy_loop, committed_loop]
    simp
  | (pr, score) :: rest, s1, s2, p => by
    intro h1 h2
    rw [greedy_loop, committed_loop]
    split_ifs with hmem
    · obtain ⟨ih1, ih2⟩ := greedy_loop_sets rest (s1.erase pr.1)
        (s2.erase pr.2) _ (h1.erase _) (h2.erase _)
      simp only [List.map_cons]
      constructor
      · rw [ih1]
        exact filter_not_mem_erase s1 pr.1 _ h1
      · rw [ih2]
        exact filter_not_mem_erase s2 pr.2 _ h2
    · exact greedy_loop_sets rest s1 s2 p h1 h2

/-- C9: the greedy matcher consumes its two input sets — it returns them
with exactly the committed compounds removed, so after the call each set
holds exactly the unmatched compounds; consequently `get_best_p_value_set`
scores the reverse hypothesis on the sets as depleted by the forward
hypothesis, which is observably different from scoring it on the original
compound sets (concrete instance: the reactions `A -> B` vs `A -> B` over
the table `predw`, where cross scores 0.99 would make a fresh reverse
hypothesis win). -/
theorem C9_matcher_depletes_and_aliases (cpd_set1 cpd_set2 : List String)
    (cpd_pred : List ((String × String) × ℚ))
    (h1 : cpd_set1.Nodup) (h2 : cpd_set2.Nodup) :
    ((reaction_equation_mapping_approx_max_likelihood cpd_set1 cpd_set2
        cpd_pred).2.1 =
      cpd_set1.filter (fun c => decide
        (c ∉ (committed_pairs cpd_set1 cpd_set2 cpd_pred).map Prod.fst)) ∧
     (reaction_equation_mapping_approx_max_likelihood cpd_set1 cpd_set2
        cpd_pred).2.2 =
      cpd_set2.filter (fun c => decide
        (c ∉ (committed_pairs cpd_set1 cpd_set2 cpd_pred).map Prod.snd))) ∧
    get_best_p_value_set [("A", -1), ("B", 1)] [("A", -1), ("B", 1)] predw ≠
      get_best_p_value_set_fresh [("A", -1), ("B", 1)] [("A", -1), ("B", 1)]
        predw := by
  have c1 : ((1/2 : ℚ) < 1/2) = False := by norm_num
  have c2 : ((99/100 : ℚ) < 1/2) = False := by norm_num
  have c3 : ((1/2 : ℚ) < 99/100) = True := by norm_num
  have c4 : ((99/100 : ℚ) < 99/100) = False := by norm_num
  refine ⟨?_, ?_⟩
  · simp only [reaction_equation_mapping_approx_max_likelihood,
      committed_pairs]
    exact greedy_loop_sets
      (sort_desc (candidate_pairs cpd_set1 cpd_set2 cpd_pred))
      cpd_set1 cpd_set2 (1, 1) h1 h2
  · have hthread : get_best_p_value_set [("A", -1), ("B", 1)]
        [("A", -1), ("B", 1)] predw = (1/4, 1/4) := by
      simp [get_best_p_value_set, merge_p_set, get_cpd_set, predw,
        reaction_equation_mapping_approx_max_likelihood, sort_desc,
        candidate_pairs, cpd_pred_lookup, insert_desc, greedy_loop,
        List.product, List.dedup, c1, c2, c3, c4]
      norm_num
    have hfresh : get_best_p_value_set_fresh [("A", -1), ("B", 1)]
        [("A", -1), ("B", 1)] predw = (49729/62500, 729/62500) := by
      simp [get_best_p_value_set_fresh, merge_p_set, get_cpd_set, predw,
        reaction_equation_mapping_approx_max_likelihood, sort_desc,
        candidate_pairs, cpd_pred_lookup, insert_desc, greedy_loop,
        List.product, List.dedup, c1, c2, c3, c4]
      norm_num
    rw [hthread, hfresh]
    intro hcontra
    have := congrArg Prod.fst hcontra
    norm_num at this

/-- C9 witness: the depletion characterization applied to the concrete sets
`["A", "B"]` and `["A", "B"]` (both duplicate-free) over the table `predw`. -/
theorem C9_matcher_depletes_and_aliases_witness :
    (["A", "B"] : List String).Nodup ∧
    ((reaction_equation_mapping_approx_max_likelihood ["A", "B"] ["A", "B"]
        predw).2.1 =
      (["A", "B"] : List String).filter (fun c => decide
        (c ∉ (committed_pairs ["A", "B"] ["A", "B"] predw).map Prod.fst)) ∧
     (reaction_equation_mapping_approx_max_likelihood ["A", "B"] ["A", "B"]
        predw).2.2 =
      (["A", "B"] : List String).filter (fun c => decide
        (c ∉ (committed_pairs ["A", "B"] ["A", "B"] predw).map Prod.snd))) ∧
    get_best_p_value_set [("A", -1), ("B", 1)] [("A", -1), ("B", 1)] predw ≠
      get_best_p_value_set_fresh [("A", -1), ("B", 1)] [("A", -1), ("B", 1)]
        predw := by
  have hnd : (["A", "B"] : List String).Nodup := by simp
  have h := C9_matcher_depletes_and_aliases ["A", "B"] ["A", "B"] predw hnd hnd
  exact ⟨hnd, h.1, h.2⟩

/-! ### Helper lemmas about sorting and reordering -/

theorem insert_desc_sorted (x : (String × String) × ℚ)
    {l : List ((String × String) × ℚ)}
    (hl : l.Pairwise (fun a b => b.2 ≤ a.2)) :
    (insert_desc x l).Pairwise (fun a b => b.2 ≤ a.2) := by
  induction l with
  | nil => simp [insert_desc]
  | cons y ys ih =>
    rw [List.pairwise_cons] at hl
    obtain ⟨hy, hys⟩ := hl
    rw [insert_desc]
    split_ifs with h
    · rw [List.pairwise_cons]
      refine ⟨?_, List.pairwise_cons.mpr ⟨hy, hys⟩⟩
      intro b hb
      rcases List.mem_cons.mp hb with rfl | hb'
      · exact h.le
      · exact (hy b hb').trans h.le
    · rw [List.pairwise_cons]
      refine ⟨?_, ih hys⟩
      intro b hb
      rcases List.mem_cons.mp ((insert_desc_perm x ys).subset hb) with rfl | hb'
      · exact not_lt.mp h
      · exact hy b hb'

theorem sort_desc_sorted (l : List ((String × String) × ℚ)) :
    (sort_desc l).Pairwise (fun a b => b.2 ≤ a.2) := by
  suffices h : ∀ (l acc : List ((String × String) × ℚ)),
      acc.Pairwise (fun a b => b.2 ≤ a.2) →
      (List.foldl (fun acc x => insert_desc x acc) acc l).Pairwise
        (fun a b => b.2 ≤ a.2) from h l [] (by simp)
  intro l
  induction l with
  | nil => intro acc hacc; simpa using hacc
  | cons x xs ih =>
    intro acc hacc
    rw [List.foldl_cons]
    exact ih _ (insert_desc_sorted x hacc)

/-- Two sorted-descending permutations of each other with pairwise-distinct
scores are equal. -/
theorem sorted_perm_distinct_eq :
    ∀ {l₁ l₂ : List ((String × String) × ℚ)}, l₁.Perm l₂ →
      l₁.Pairwise (fun a b => b.2 ≤ a.2) →
      l₂.Pairwise (fun a b => b.2 ≤ a.2) →
      l₁.Pairwise (fun a b => a.2 ≠ b.2) → l₁ = l₂ := by
  intro l₁
  induction l₁ with
  | nil =>
    intro l₂ hp _ _ _
    exact hp.nil_eq
  | cons a t₁ ih =>
    intro l₂ hp hs₁ hs₂ hd
    cases l₂ with
    | nil => exact absurd hp.symm.nil_eq (by simp)
    | cons b t₂ =>
      by_cases hab : a = b
      · subst hab
        have hp' := hp.cons_inv
        rw [List.pairwise_cons] at hs₁ hs₂ hd
        rw [ih hp' hs₁.2 hs₂.2 hd.2]
      · exfalso
        have ha2 : a ∈ b :: t₂ := hp.subset (List.mem_cons_self a t₁)
        have hat2 : a ∈ t₂ := by
          rcases List.mem_cons.mp ha2 with h | h
          · exact absurd h hab
          · exact h
        have hb1 : b ∈ a :: t₁ := hp.symm.subset (List.mem_cons_self b t₂)
        have hbt1 : b ∈ t₁ := by
          rcases List.mem_cons.mp hb1 with h | h
          · exact absurd h.symm hab
          · exact h
        rw [List.pairwise_cons] at hs₁ hs₂ hd
        exact hd.1 b hbt1 (le_antisymm (hs₂.1 a hat2) (hs₁.1 b hbt1))

/-- Over duplicate-free input sets and a posterior table with pairwise
distinct scores, the candidate pairs carry pairwise distinct scores. -/
theorem candidate_pairs_value_distinct (s1 s2 : List String)
    (pred : List ((String × String) × ℚ))
    (h1 : s1.Nodup) (h2 : s2.Nodup) (hv : (pred.map Prod.snd).Nodup) :
    (candidate_pairs s1 s2 pred).Pairwise (fun a b => a.2 ≠ b.2) := by
  rw [candidate_pairs]
  refine List.Pairwise.filterMap _ ?_ (h1.product h2)
  intro p q hpq x hx y hy
  simp only [Option.mem_def, Option.map_eq_some'] at hx hy
  obtain ⟨v, hlv, rfl⟩ := hx
  obtain ⟨w, hlw, rfl⟩ := hy
  intro heq
  apply hpq
  have := List.inj_on_of_nodup_map hv (cpd_pred_lookup_mem hlv)
    (cpd_pred_lookup_mem hlw) heq
  exact congrArg Prod.fst this

/-- The greedy loop is pointwise invariant (in its p-values, and up to
permutation in its leftover sets) under permuting the two input sets, for a
fixed candidate list. -/
theorem greedy_loop_perm_sets :
    ∀ (cand : List ((String × String) × ℚ)) (s1 s2 t1 t2 : List String)
      (p : ℚ × ℚ), s1.Perm t1 → s2.Perm t2 →
      (greedy_loop cand s1 s2 p).1 = (greedy_loop cand t1 t2 p).1 ∧
      (greedy_loop cand s1 s2 p).2.1.Perm (greedy_loop cand t1 t2 p).2.1 ∧
      (greedy_loop cand s1 s2 p).2.2.Perm (greedy_loop cand t1 t2 p).2.2
  | [], s1, s2, t1, t2, p => by
    intro hp1 hp2
    rw [greedy_loop, greedy_loop]
    exact ⟨rfl, hp1, hp2⟩
  | (pr, score) :: rest, s1, s2, t1, t2, p => by
    intro hp1 hp2
    rw [greedy_loop, greedy_loop]
    by_cases hm : pr.1 ∈ s1 ∧ pr.2 ∈ s2
    · have hm' : pr.1 ∈ t1 ∧ pr.2 ∈ t2 :=
        ⟨hp1.mem_iff.mp hm.1, hp2.mem_iff.mp hm.2⟩
      rw [if_pos hm, if_pos hm']
      exact greedy_loop_perm_sets rest _ _ _ _ _
        (List.Perm.erase pr.1 hp1) (List.Perm.erase pr.2 hp2)
    · have hm' : ¬(pr.1 ∈ t1 ∧ pr.2 ∈ t2) := fun hc =>
        hm ⟨hp1.mem_iff.mpr hc.1, hp2.mem_iff.mpr hc.2⟩
      rw [if_neg hm, if_neg hm']
      exact greedy_loop_perm_sets rest _ _ _ _ _ hp1 hp2

/-- C6 counterexample: permuting the iteration order of the first input set
changes the greedy matcher's result when two candidate pairs tie on score
and share an endpoint.  With scores (a,x) = (b,x) = 0.8 and (b,y) = 0.5,
order [a, b] commits (a,x) then (b,y) (p_match = 0.37), while order [b, a]
commits (b,x) and strands both a and y (p_match = 0.0074). -/
theorem C6_cex_reorder_changes_result :
    (["b", "a"] : List String).Perm ["a", "b"] ∧
    (reaction_equation_mapping_approx_max_likelihood ["b", "a"] ["x", "y"]
        [(("a", "x"), 0.8), (("b", "x"), 0.8), (("b", "y"), 0.5)]).1 ≠
      (reaction_equation_mapping_approx_max_likelihood ["a", "b"] ["x", "y"]
        [(("a", "x"), 0.8), (("b", "x"), 0.8), (("b", "y"), 0.5)]).1 := by
  have c1 : ((0.5 : ℚ) < 0.8) = True := by norm_num
  have c2 : ((0.8 : ℚ) < 0.8) = False := by norm_num
  have c3 : ((0.8 : ℚ) < 0.5) = False := by norm_num
  constructor
  · exact List.Perm.swap "a" "b" []
  · have h1 : (reaction_equation_mapping_approx_max_likelihood ["a", "b"]
        ["x", "y"] [(("a", "x"), 0.8), (("b", "x"), 0.8), (("b", "y"), 0.5)]).1
        = (37/100, 13/100) := by
      simp [reaction_equation_mapping_approx_max_likelihood, sort_desc,
        candidate_pairs, cpd_pred_lookup, insert_desc, greedy_loop,
        List.product, c1, c2, c3]
      norm_num
    have h2 : (reaction_equation_mapping_approx_max_likelihood ["b", "a"]
        ["x", "y"] [(("a", "x"), 0.8), (("b", "x"), 0.8), (("b", "y"), 0.5)]).1
        = (37/5000, 1053/5000) := by
      simp [reaction_equation_mapping_approx_max_likelihood, sort_desc,
        candidate_pairs, cpd_pred_lookup, insert_desc, greedy_loop,
        List.product, c1, c2, c3]
      norm_num
    rw [h1, h2]
    intro hcontra
    have := congrArg Prod.fst hcontra
    norm_num at this

/-- C6 amended: permuting the iteration order of either input compound-name
set (or both) leaves the greedy set matcher's (p_match, p_no_match)
unchanged, provided the posterior table's scores are pairwise distinct, so
that no two candidate pairs tie.  With tied scores sharing an endpoint, the
commit order — and with it the aggregate result — can change (see the
counterexample). -/
theorem C6_reorder_invariant_amended (s1 s2 t1 t2 : List String)
    (pred : List ((String × String) × ℚ))
    (hn1 : s1.Nodup) (hn2 : s2.Nodup)
    (hp1 : t1.Perm s1) (hp2 : t2.Perm s2)
    (hv : (pred.map Prod.snd).Nodup) :
    (reaction_equation_mapping_approx_max_likelihood t1 t2 pred).1 =
      (reaction_equation_mapping_approx_max_likelihood s1 s2 pred).1 := by
  have hnt1 : t1.Nodup := hp1.nodup_iff.mpr hn1
  have hnt2 : t2.Nodup := hp2.nodup_iff.mpr hn2
  have hcand : (candidate_pairs t1 t2 pred).Perm (candidate_pairs s1 s2 pred) :=
    List.Perm.filterMap _ (hp1.product hp2)
  have hsp : (sort_desc (candidate_pairs t1 t2 pred)).Perm
      (sort_desc (candidate_pairs s1 s2 pred)) :=
    (sort_desc_perm _).trans (hcand.trans (sort_desc_perm _).symm)
  have hdist : (sort_desc (candidate_pairs t1 t2 pred)).Pairwise
      (fun a b => a.2 ≠ b.2) :=
    ((sort_desc_perm _).pairwise_iff (fun h => h.symm)).mpr
      (candidate_pairs_value_distinct t1 t2 pred hnt1 hnt2 hv)
  have heq : sort_desc (candidate_pairs t1 t2 pred) =
      sort_desc (candidate_pairs s1 s2 pred) :=
    sorted_perm_distinct_eq hsp (sort_desc_sorted _) (sort_desc_sorted _) hdist
  obtain ⟨hP, hq1, hq2⟩ := greedy_loop_perm_sets
    (sort_desc (candidate_pairs s1 s2 pred)) t1 t2 s1 s2 (1, 1) hp1 hp2
  simp only [reaction_equation_mapping_approx_max_likelihood]
  rw [heq, hP, hq1.length_eq, hq2.length_eq]

/-- C6 witness: the amended invariance applied to the duplicate-free sets
`["A", "B"]` / `["X"]`, the permutation `["B", "A"]` of the first, and a
table with pairwise distinct scores. -/
theorem C6_reorder_invariant_amended_witness :
    (["A", "B"] : List String).Nodup ∧
    (["B", "A"] : List String).Perm ["A", "B"] ∧
    (([(("A", "X"), (3/4 : ℚ)), (("B", "X"), 1/4)].map Prod.snd).Nodup) ∧
    (reaction_equation_mapping_approx_max_likelihood ["B", "A"] ["X"]
        [(("A", "X"), (3/4 : ℚ)), (("B", "X"), 1/4)]).1 =
      (reaction_equation_mapping_approx_max_likelihood ["A", "B"] ["X"]
        [(("A", "X"), (3/4 : ℚ)), (("B", "X"), 1/4)]).1 := by
  have hn1 : (["A", "B"] : List String).Nodup := by simp
  have hn2 : (["X"] : List String).Nodup := by simp
  have hperm : (["B", "A"] : List String).Perm ["A", "B"] :=
    List.Perm.swap "A" "B" []
  have hv : (([(("A", "X"), (3/4 : ℚ)), (("B", "X"), 1/4)].map
      Prod.snd).Nodup) := by
    simp only [List.map_cons, List.map_nil, List.nodup_cons, List.not_mem_nil,
      List.mem_singleton, List.nodup_nil, and_true, not_false_iff]
    norm_num
  exact ⟨hn1, hperm, hv,
    C6_reorder_invariant_amended ["A", "B"] ["X"] ["B", "A"] ["X"]
      [(("A", "X"), (3/4 : ℚ)), (("B", "X"), 1/4)] hn1 hn2 hperm
      (List.Perm.refl _) hv⟩

end Psamm
